import Mathlib

/-!
Shallow embedding of `train.py` from the ISIC2018 multi-task segmentation
training driver, together with theorems settling the frozen claims about it.

Conventions of the embedding:
  * Python floats are modelled as rationals (`ℚ`); every comparison and sum the
    loop performs is exact arithmetic on small decimal constants.
  * The split manifest (a pandas DataFrame) is a list of `Row` records; only the
    columns the loop reads are carried.
  * Model weights are opaque: a `ModelState` tag (`ℕ`) suffices to state which
    weights a checkpoint or an init step restores.
  * The metric dictionaries are projected to the two keys the loop reads
    (`loss1`, `jaccard`); checkpoints store these projections.
  * One epoch of the `for epoch in range(epoch, n_epochs+1)` loop is driven by
    an `EpochEvent` supplied by the environment: either the epoch body runs to
    completion (delivering the batch count, the post-training weights and the
    two metric mappings), or a `KeyboardInterrupt` is raised somewhere inside
    the body (delivering whatever partial batch count/weights were reached).
-/

namespace ISIC2018

/-- Opaque tag standing for a full set of model weights (`model.state_dict()`). -/
abbrev ModelState := ℕ

/-- Projection of a metric mapping (the dict returned by `meter.value()` /
`validation_binary`) to the two keys the training loop reads:
`metrics['loss1']` and `metrics['jaccard']`. -/
structure Metrics where
  loss1 : ℚ
  jaccard : ℚ
deriving DecidableEq, Repr

/-- Modelled from the spec: the on-disk checkpoint layout written by
`save_weights` (defined in `utils.py`, which is not under src/). Per the spec,
a checkpoint holds `{epoch, step, model-state, valid-loss, train-metrics,
valid-metrics}`; `valid_loss` is an `Option` because a resumed file may lack
the field (train.py:224-227 guards its read with try/except). -/
structure Checkpoint where
  epoch : ℕ
  step : ℕ
  model : ModelState
  valid_loss : Option ℚ
  train_metrics : Metrics
  valid_metrics : Metrics
deriving DecidableEq, Repr

/-- Modelled from the spec: `save_weights` (in `utils.py`, not under src/)
persists the checkpoint record from the arguments passed at the call sites
train.py:372 and train.py:376; the spec's layout stores the validation loss
alongside the two metric mappings. -/
def save_weights (model : ModelState) (epoch step : ℕ)
    (train_metrics valid_metrics : Metrics) : Checkpoint :=
  { epoch := epoch, step := step, model := model,
    valid_loss := some valid_metrics.loss1,
    train_metrics := train_metrics, valid_metrics := valid_metrics }

/-! ### Split manifest and `get_split` (train.py:31-43) -/

/-- One row of the `train_test_id` DataFrame: an image identifier, the `Split`
column, and the five per-attribute indicator columns summed into `total`. -/
structure Row where
  name : String
  split : String
  pigment_network : ℕ
  negative_network : ℕ
  streaks : ℕ
  milia_like_cyst : ℕ
  globules : ℕ
  total : ℕ := 0
deriving DecidableEq, Repr

/-- The `total` column assignment at train.py:35-39. -/
def withTotal (r : Row) : Row :=
  { r with total := r.pigment_network + r.negative_network + r.streaks
      + r.milia_like_cyst + r.globules }

/-- Relabelling applied to the copied validation rows at train.py:41
(`valid['Split'] = 'train'`). -/
def relabelTrain (r : Row) : Row :=
  { r with split := "train" }

/-- Embedding of `get_split` (train.py:31-43): add the `total` column, copy the
rows whose `Split` is not `'train'`, set the copies' `Split` to `'train'`, and
concatenate the copies after the original frame. -/
def get_split (manifest : List Row) : List Row :=
  let t := manifest.map withTotal
  let valid := (t.filter fun r => r.split != "train").map relabelTrain
  t ++ valid

/-- Modelled from the spec: `make_loader` (in `dataset.py`, not under src/)
builds the data source from the split manifest; in train mode it delivers the
manifest rows whose `Split` column is `'train'`, in eval mode the rows whose
`Split` column is not `'train'` (the spec and the claims identify the
evaluated samples as the rows whose Split column is not 'train'). -/
def make_loader (manifest : List Row) (train : Bool) : List Row :=
  if train then manifest.filter fun r => r.split == "train"
  else manifest.filter fun r => r.split != "train"

/-! ### Run initialization and resume (train.py:213-234, 243) -/

/-- The mutable run counters and trackers right before the epoch loop starts:
`epoch`, `step` (train.py:219-223, 232-233), `previous_valid_loss`
(train.py:215, 225-227), `previous_valid_jaccard` (train.py:243), and the
model weights. -/
structure InitResult where
  epoch : ℕ
  step : ℕ
  previous_valid_loss : ℚ
  previous_valid_jaccard : ℚ
  model : ModelState
deriving DecidableEq, Repr

/-- Embedding of the resume block (train.py:213-234) followed by
`previous_valid_jaccard = 0` (train.py:243). When `--resume-path` is given and
`checkpoint/model.pt` exists, the stored `epoch` and `step` are read and the
weights restored, but train.py:222-223 immediately overwrite `epoch := 1` and
`step := 0` (the shadowing `let`s mirror those dead loads); the stored
`valid_loss` is read under try/except with sentinel 10 (train.py:224-227). -/
def initRun (resume_path : Option String) (saved : Option Checkpoint)
    (initModel : ModelState) : InitResult :=
  match resume_path, saved with
  | some _, some st =>
      let epoch := st.epoch
      let step := st.step
      let model := st.model
      let epoch := 1
      let step := 0
      let previous_valid_loss := st.valid_loss.getD 10
      { epoch := epoch, step := step,
        previous_valid_loss := previous_valid_loss,
        previous_valid_jaccard := 0, model := model }
  | _, _ =>
      { epoch := 1, step := 0, previous_valid_loss := 10,
        previous_valid_jaccard := 0, model := initModel }

/-! ### Checkpoint selection policy (train.py:215, 243, 369-378) -/

/-- The two independent best-so-far trackers `previous_valid_loss` and
`previous_valid_jaccard`. -/
structure BestState where
  best_loss : ℚ
  best_jaccard : ℚ
deriving DecidableEq, Repr

/-- The values the trackers hold when no checkpoint is resumed:
`previous_valid_loss = 10` (train.py:215) and `previous_valid_jaccard = 0`
(train.py:243). -/
def initBest : BestState := ⟨10, 0⟩

/-- One epoch of the selection policy (train.py:369-378): the loss branch
fires iff `valid_loss < previous_valid_loss`, the jaccard branch fires iff
`valid_jaccard > previous_valid_jaccard`; each firing branch persists the
checkpoint and updates its own tracker. Returns the new trackers and the two
branch flags (loss branch, jaccard branch). -/
def selectStep (b : BestState) (valid_loss valid_jaccard : ℚ) :
    BestState × Bool × Bool :=
  let byLoss : Bool := if valid_loss < b.best_loss then true else false
  let byJaccard : Bool := if valid_jaccard > b.best_jaccard then true else false
  (⟨if valid_loss < b.best_loss then valid_loss else b.best_loss,
    if valid_jaccard > b.best_jaccard then valid_jaccard else b.best_jaccard⟩,
   byLoss, byJaccard)

/-- The selection policy folded over a sequence of per-epoch
`(valid_loss, valid_jaccard)` observations, returning the branch flags of each
epoch. -/
def selectRun (b : BestState) : List (ℚ × ℚ) → List (Bool × Bool)
  | [] => []
  | (vl, vj) :: rest =>
      let r := selectStep b vl vj
      r.2 :: selectRun r.1 rest

/-! ### Loss weights (train.py:250-252, 329) -/

/-- The per-epoch loss weights: train.py:250-252 assign `w1 = 1.0`, `w2 = 0.5`,
`w3 = 0.5` at the top of every epoch (the commented-out schedule never fires),
so the weights are this constant triple for every epoch index. -/
def lossWeights (_epoch : ℕ) : ℚ × ℚ × ℚ := (1, 1/2, 1/2)

/-- Embedding of `loss = loss1*w1 + loss2*w2 + loss3*w3` (train.py:329) with
the weights of the given epoch. -/
def batchLoss (epoch : ℕ) (loss1 loss2 loss3 : ℚ) : ℚ :=
  let w := lossWeights epoch
  loss1 * w.1 + loss2 * w.2.1 + loss3 * w.2.2

/-! ### Layer-freeze schedule (train.py:256-283) -/

/-- One named model parameter: its dotted name, which part of the network it
belongs to, and its `requires_grad` flag. -/
structure Param where
  name : String
  part : String
  requires_grad : Bool
deriving DecidableEq, Repr

/-- Modelled from the spec: `get_freeze_layer_names(model, part='encoder')`
(in `utils.py`, not under src/) returns the names of the parameters of the
requested part of the network. -/
def get_freeze_layer_names (params : List Param) (part : String) : List String :=
  (params.filter fun p => p.part == part).map Param.name

/-- Modelled from the spec: `set_freeze_layers(model, freeze_layer_names)`
(in `utils.py`, not under src/) sets `requires_grad := false` exactly on the
parameters whose name is in the given list and `true` on the rest; a `None`
list makes every parameter trainable. -/
def set_freeze_layers (params : List Param)
    (freeze_layer_names : Option (List String)) : List Param :=
  match freeze_layer_names with
  | none => params.map fun p => { p with requires_grad := true }
  | some names =>
      params.map fun p =>
        { p with requires_grad := if p.name ∈ names then false else true }

/-- The two freeze-schedule rules the loop can fire. -/
inductive FreezeRule where
  | freezeEncoder
  | unfreezeAll
deriving DecidableEq, Repr

/-- The epoch-indexed freeze schedule (train.py:256-283): the `if epoch == 1`
branch freezes the encoder, the `elif epoch == 50` branch unfreezes
everything, and no branch fires at any other epoch. -/
def freezeAction (epoch : ℕ) : Option FreezeRule :=
  if epoch = 1 then some .freezeEncoder
  else if epoch = 50 then some .unfreezeAll
  else none

/-- The effect of the schedule on the model parameters at the start of an
epoch: the `freezeEncoder` rule runs `set_freeze_layers` with the encoder
parameter names (train.py:257-258), the `unfreezeAll` rule runs it with `None`
(train.py:282), and a non-matching epoch leaves the parameters untouched. -/
def applyFreezeSchedule (epoch : ℕ) (params : List Param) : List Param :=
  match freezeAction epoch with
  | some .freezeEncoder =>
      set_freeze_layers params (some (get_freeze_layer_names params "encoder"))
  | some .unfreezeAll => set_freeze_layers params none
  | none => params

/-! ### Optimizer construction (train.py:55, 202-210) -/

/-- The optimizer the run constructs: Adam with the configured learning rate
(train.py:203), or SGD with the configured learning rate and momentum 0.9
(train.py:205). -/
inductive Optimizer where
  | adam (lr : ℚ)
  | sgd (lr momentum : ℚ)
deriving DecidableEq, Repr

/-- The `ReduceLROnPlateau` scheduler built at train.py:210 with
`factor=0.8, patience=5` over the constructed optimizer. -/
structure Scheduler where
  optimizer : Optimizer
  factor : ℚ
  patience : ℕ
deriving DecidableEq, Repr

/-- An unhandled Python exception at startup; the only one the claims concern
is the `NameError` raised when an unbound local variable is referenced. -/
inductive StartupError where
  | nameError (var : String)
deriving DecidableEq, Repr

/-- An argparse flag: its name and its `choices` restriction, when any. -/
structure ArgFlag where
  name : String
  choices : Option (List String)
deriving DecidableEq, Repr

/-- The `--optimizer` flag (train.py:55): declared with no `choices`
restriction. -/
def optimizerFlag : ArgFlag := { name := "--optimizer", choices := none }

/-- The `--model` flag (train.py:58), which unlike `--optimizer` does carry a
`choices` restriction. -/
def modelFlag : ArgFlag :=
  { name := "--model",
    choices := some ["UNet", "UNet11", "UNet16", "UNet16BN", "LinkNet34"] }

/-- Whether argparse accepts a value for a flag: any string when the flag has
no `choices`, membership in `choices` otherwise. -/
def parseAccepts (f : ArgFlag) (v : String) : Bool :=
  match f.choices with
  | none => true
  | some cs => cs.contains v

/-- Embedding of the optimizer dispatch (train.py:202-205): the local variable
`optimizer` is bound only by the `== 'Adam'` and `== 'SGD'` branches; for any
other value it stays unbound (`none`). -/
def buildOptimizer (name : String) (lr : ℚ) : Option Optimizer :=
  if name = "Adam" then some (.adam lr)
  else if name = "SGD" then some (.sgd lr (9/10))
  else none

/-- Embedding of the scheduler construction (train.py:210): referencing the
`optimizer` variable raises an unhandled `NameError` when no dispatch branch
bound it, and otherwise builds the `ReduceLROnPlateau` scheduler. -/
def buildScheduler (opt : Option Optimizer) : Except StartupError Scheduler :=
  match opt with
  | none => .error (.nameError "optimizer")
  | some o => .ok { optimizer := o, factor := 4/5, patience := 5 }

/-! ### The epoch loop (train.py:244-391) -/

/-- What the environment delivers for one iteration of the epoch loop: either
the epoch body runs to completion — `nBatches` training batches, the weights
after the epoch's optimizer steps, and the two metric mappings — or a
`KeyboardInterrupt` is raised inside the body after `nDone` batches, leaving
the weights at `modelPartial`. -/
inductive EpochEvent where
  | metrics (nBatches : ℕ) (modelAfter : ModelState)
      (train_metrics valid_metrics : Metrics)
  | interrupt (nDone : ℕ) (modelPartial : ModelState)
deriving DecidableEq, Repr

/-- The observable outcome of one epoch: completed with the list of checkpoint
file writes it performed (in order; both branches may write the same record),
or aborted by a `KeyboardInterrupt`. -/
inductive EpochResult where
  | completed (writes : List Checkpoint)
  | interrupted
deriving DecidableEq, Repr

/-- The long-lived loop state: the global step counter, the two best-so-far
trackers, whether the tensorboard writer is open, the single `model.pt` slot
(overwritten on each save), and the current weights. -/
structure LoopState where
  step : ℕ
  previous_valid_loss : ℚ
  previous_valid_jaccard : ℚ
  writerOpen : Bool
  saved : Option Checkpoint
  model : ModelState
deriving DecidableEq, Repr

/-- The loop state right after `initRun`, before the first epoch: writer just
opened (train.py:238), no save performed yet this run. -/
def toLoopState (r : InitResult) : LoopState :=
  { step := r.step, previous_valid_loss := r.previous_valid_loss,
    previous_valid_jaccard := r.previous_valid_jaccard,
    writerOpen := true, saved := none, model := r.model }

/-- One iteration of the epoch loop (train.py:244-390). On completion: the step
counter advances by the batch count (train.py:334), the selection policy
(train.py:369-378) decides the saves, each firing branch writing
`save_weights(model, model_path, epoch + 1, step, train_metrics,
valid_metrics)`. On `KeyboardInterrupt`: the handler (train.py:383-390) only
closes the writer — the save and the `return` are commented out — so the
trackers and the save slot are untouched and the loop moves on. -/
def runEpoch (s : LoopState) (epoch : ℕ) : EpochEvent → LoopState × EpochResult
  | .interrupt nDone m =>
      ({ s with step := s.step + nDone, model := m, writerOpen := false },
       .interrupted)
  | .metrics nBatches m train_metrics valid_metrics =>
      let step := s.step + nBatches
      let ck := save_weights m (epoch + 1) step train_metrics valid_metrics
      let sel := selectStep ⟨s.previous_valid_loss, s.previous_valid_jaccard⟩
        valid_metrics.loss1 valid_metrics.jaccard
      let writes := (if sel.2.1 then [ck] else []) ++ (if sel.2.2 then [ck] else [])
      ({ s with
          step := step,
          model := m,
          previous_valid_loss := sel.1.best_loss,
          previous_valid_jaccard := sel.1.best_jaccard,
          saved := if writes.isEmpty then s.saved else some ck },
       .completed writes)

/-- The writes an `EpochResult` performed. -/
def EpochResult.writesOf : EpochResult → List Checkpoint
  | .completed w => w
  | .interrupted => []

/-- The epoch loop `for epoch in range(epoch, n_epochs + 1)` (train.py:244)
run for `fuel` remaining epochs starting at index `epoch`, followed by the
final `writer.close()` (train.py:391). Returns the final state and the trace
of (epoch index, outcome) pairs, one per iteration: the `except` handler
swallows the interrupt, so the loop always runs every remaining epoch. -/
def runFrom (s : LoopState) (epoch : ℕ) :
    ℕ → (ℕ → EpochEvent) → LoopState × List (ℕ × EpochResult)
  | 0, _ => ({ s with writerOpen := false }, [])
  | n + 1, events =>
      let r := runEpoch s epoch (events epoch)
      let rest := runFrom r.1 (epoch + 1) n events
      (rest.1, (epoch, r.2) :: rest.2)

/-! ### Concrete inputs used by the counterexamples and witnesses -/

/-- Concrete two-parameter model used to instantiate the freeze-schedule
theorem. -/
def psEx : List Param :=
  [⟨"module.conv1.weight", "encoder", true⟩,
   ⟨"module.final.weight", "decoder", true⟩]

/-- Concrete train-metric mapping used by the concrete runs below. -/
def tmEx : Metrics := ⟨3, 1⟩

/-- Concrete validation-metric mapping used by the concrete runs below:
validation loss1 = 2, validation jaccard = 1. -/
def vmEx : Metrics := ⟨2, 1⟩

/-- Concrete resumed checkpoint: saved at epoch 7, step 123, weights tag 42,
stored validation loss 2, and a stored validation jaccard of 1. -/
def ckEx : Checkpoint :=
  { epoch := 7, step := 123, model := 42, valid_loss := some 2,
    train_metrics := tmEx, valid_metrics := ⟨2, 1⟩ }

/-- Concrete resumed checkpoint with no stored valid-loss field. -/
def ckNoLoss : Checkpoint :=
  { epoch := 3, step := 40, model := 5, valid_loss := none,
    train_metrics := tmEx, valid_metrics := vmEx }

/-- Concrete manifest row marked for training. -/
def rowTrain : Row :=
  { name := "ISIC_0001", split := "train", pigment_network := 1,
    negative_network := 0, streaks := 0, milia_like_cyst := 0, globules := 0 }

/-- Concrete manifest row marked for validation (`Split` is not `'train'`). -/
def rowVal : Row :=
  { name := "ISIC_0002", split := "valid", pigment_network := 0,
    negative_network := 1, streaks := 1, milia_like_cyst := 0, globules := 0 }

/-- Concrete two-row split manifest with one training and one validation
sample. -/
def exampleManifest : List Row := [rowTrain, rowVal]

/-- The loop state of a fresh (non-resumed) run right before epoch 1. -/
def s0 : LoopState := toLoopState (initRun none none 0)

/-- Concrete per-epoch schedule: a `KeyboardInterrupt` inside epoch 1's body
after 3 batches, and a normally completing epoch everywhere else. -/
def eventsEx : ℕ → EpochEvent := fun e =>
  if e = 1 then .interrupt 3 7 else .metrics 4 8 tmEx vmEx

/-! ### Theorems -/

/-- C4: the checkpoint selection policy keeps two independent best-so-far
trackers initialized to `best_loss = 10` and `best_jaccard = 0`, each checked
with a strict inequality every epoch: the loss branch persists and updates
`best_loss` iff `valid_loss < best_loss`, the jaccard branch persists and
updates `best_jaccard` iff `valid_jaccard > best_jaccard`; on the observation
sequence [(0.5,0.3),(0.4,0.2),(0.6,0.5)] the policy persists after step 1 via
both branches, after step 2 only via the loss branch, and after step 3 only
via the jaccard branch. -/
theorem checkpoint_selection_policy :
    initBest = ⟨10, 0⟩
    ∧ (∀ b vl vj,
        ((selectStep b vl vj).2.1 = true ↔ vl < b.best_loss)
        ∧ ((selectStep b vl vj).2.2 = true ↔ vj > b.best_jaccard)
        ∧ (selectStep b vl vj).1.best_loss
            = (if vl < b.best_loss then vl else b.best_loss)
        ∧ (selectStep b vl vj).1.best_jaccard
            = (if vj > b.best_jaccard then vj else b.best_jaccard))
    ∧ selectRun initBest [(0.5, 0.3), (0.4, 0.2), (0.6, 0.5)]
        = [(true, true), (true, false), (false, true)] := by
  refine ⟨rfl, fun b vl vj => ⟨?_, ?_, rfl, rfl⟩,
    by norm_num [selectRun, selectStep, initBest]⟩
  · simp only [selectStep]
    split <;> simp_all
  · simp only [selectStep]
    split <;> simp_all

/-- C5: every training batch's scalar loss is the weighted sum
`w1*loss1 + w2*loss2 + w3*loss3` with the weights constant at (1.0, 0.5, 0.5)
for every epoch of the run; at loss1 = 0.2, loss2 = 0.4, loss3 = 0.6 the total
is 0.7. -/
theorem loss_weighted_sum :
    (∀ epoch, lossWeights epoch = (1, 1/2, 1/2))
    ∧ (∀ epoch loss1 loss2 loss3, batchLoss epoch loss1 loss2 loss3
        = 1 * loss1 + (1/2) * loss2 + (1/2) * loss3)
    ∧ batchLoss 1 0.2 0.4 0.6 = 0.7 := by
  refine ⟨fun _ => rfl, fun e l1 l2 l3 => ?_, by norm_num [batchLoss, lossWeights]⟩
  simp only [batchLoss, lossWeights]
  ring

/-- C6: the layer-freeze schedule is keyed by the epoch index with exactly one
rule firing per matching epoch: at epoch 1 the encoder parameters are frozen
(every parameter whose name is among the encoder parameter names becomes
non-trainable, all others stay trainable), at epoch 50 all parameters are made
trainable, and at every other epoch no action is applied. -/
theorem freeze_schedule_policy :
    freezeAction 1 = some .freezeEncoder
    ∧ freezeAction 50 = some .unfreezeAll
    ∧ (∀ e, e ≠ 1 → e ≠ 50 →
        freezeAction e = none ∧ ∀ ps, applyFreezeSchedule e ps = ps)
    ∧ (∀ ps p, p ∈ applyFreezeSchedule 1 ps →
        (p.requires_grad = false ↔ p.name ∈ get_freeze_layer_names ps "encoder"))
    ∧ (∀ ps p, p ∈ applyFreezeSchedule 50 ps → p.requires_grad = true) := by
  refine ⟨rfl, rfl, fun e h1 h50 => ?_, fun ps p hp => ?_, fun ps p hp => ?_⟩
  · have hf : freezeAction e = none := by
      simp [freezeAction, h1, h50]
    exact ⟨hf, fun ps => by simp [applyFreezeSchedule, hf]⟩
  · obtain ⟨q, hq, hqe⟩ := List.mem_map.mp hp
    subst hqe
    by_cases h : q.name ∈ get_freeze_layer_names ps "encoder" <;> simp [h]
  · obtain ⟨q, hq, hqe⟩ := List.mem_map.mp hp
    subst hqe
    rfl

/-- Witness for the freeze-schedule theorem at epoch 7 (no rule), at epoch 1
on a concrete encoder parameter, and at epoch 50 on a concrete decoder
parameter. -/
theorem freeze_schedule_policy_witness :
    (freezeAction 7 = none ∧ applyFreezeSchedule 7 psEx = psEx)
    ∧ ((Param.mk "module.conv1.weight" "encoder" false).requires_grad = false
        ↔ (Param.mk "module.conv1.weight" "encoder" false).name
            ∈ get_freeze_layer_names psEx "encoder")
    ∧ (Param.mk "module.final.weight" "decoder" true).requires_grad = true :=
  ⟨⟨(freeze_schedule_policy.2.2.1 7 (by decide) (by decide)).1,
    (freeze_schedule_policy.2.2.1 7 (by decide) (by decide)).2 psEx⟩,
   freeze_schedule_policy.2.2.2.1 psEx _ (by decide),
   freeze_schedule_policy.2.2.2.2 psEx _ (by decide)⟩

/-- C10: the `--optimizer` flag carries no `choices` restriction, so argparse
accepts every string; for any value other than `'Adam'`/`'SGD'` the
`optimizer` local is never bound and the scheduler construction raises an
unhandled `NameError`; `'Adam'` yields Adam with the configured learning rate
and `'SGD'` yields SGD with momentum 0.9. -/
theorem optimizer_flag_unvalidated :
    (∀ v, parseAccepts optimizerFlag v = true)
    ∧ (∀ v lr, v ≠ "Adam" → v ≠ "SGD" →
        buildOptimizer v lr = none
        ∧ buildScheduler (buildOptimizer v lr) = .error (.nameError "optimizer"))
    ∧ (∀ lr, buildOptimizer "Adam" lr = some (.adam lr))
    ∧ (∀ lr, buildOptimizer "SGD" lr = some (.sgd lr (9/10))) := by
  refine ⟨fun v => rfl, fun v lr h1 h2 => ?_, fun lr => ?_, fun lr => ?_⟩
  · have hnone : buildOptimizer v lr = none := by simp [buildOptimizer, h1, h2]
    exact ⟨hnone, by rw [hnone]; rfl⟩
  · simp [buildOptimizer]
  · simp [buildOptimizer]

/-- Witness for the optimizer-flag theorem at the unrecognized value
`'RMSprop'`. -/
theorem optimizer_flag_unvalidated_witness :
    buildOptimizer "RMSprop" (1/1000) = none
    ∧ buildScheduler (buildOptimizer "RMSprop" (1/1000))
        = .error (.nameError "optimizer") :=
  optimizer_flag_unvalidated.2.1 "RMSprop" (1/1000) (by decide) (by decide)

/-- C3 counterexample: resuming from a checkpoint that stores epoch 7 and
step 123 still starts the run at epoch 1, step 0 — the stored counters are
read and then immediately overwritten (train.py:222-223), so the run is not
initialized from them. -/
theorem resume_counters_counterexample :
    (initRun (some "model.pt") (some ckEx) 0).epoch = 1
    ∧ (initRun (some "model.pt") (some ckEx) 0).step = 0
    ∧ ckEx.epoch = 7 ∧ ckEx.step = 123 :=
  ⟨rfl, rfl, rfl, rfl⟩

/-- C3 (amended): when a resume path is given and the checkpoint file exists,
the model weights and the best-loss tracker are restored from it, but the
epoch index and the global step counter are reset to the defaults 1 and 0
(the loaded values are dead stores). -/
theorem resume_restores_weights_resets_counters (p : String) (st : Checkpoint)
    (m : ModelState) :
    initRun (some p) (some st) m
      = { epoch := 1, step := 0,
          previous_valid_loss := st.valid_loss.getD 10,
          previous_valid_jaccard := 0, model := st.model } := rfl

/-- C7: if the resumed checkpoint exists but lacks a stored valid-loss field,
the run recovers locally: `previous_valid_loss` falls back to the sentinel
default 10 and initialization completes normally (weights restored, counters
at the defaults) — a missing valid-loss field is never fatal. -/
theorem missing_valid_loss_sentinel (p : String) (st : Checkpoint)
    (m : ModelState) (h : st.valid_loss = none) :
    (initRun (some p) (some st) m).previous_valid_loss = 10
    ∧ initRun (some p) (some st) m
        = { epoch := 1, step := 0, previous_valid_loss := 10,
            previous_valid_jaccard := 0, model := st.model } := by
  simp [initRun, h]

/-- Witness for the missing-valid-loss theorem on a concrete checkpoint that
lacks the field. -/
theorem missing_valid_loss_sentinel_witness :
    (initRun (some "model.pt") (some ckNoLoss) 0).previous_valid_loss = 10
    ∧ initRun (some "model.pt") (some ckNoLoss) 0
        = { epoch := 1, step := 0, previous_valid_loss := 10,
            previous_valid_jaccard := 0, model := 5 } :=
  missing_valid_loss_sentinel "model.pt" ckNoLoss 0 rfl

/-- C8: the best-jaccard tracker starts at 0 on every run, resumed or not —
only the best-loss tracker is restored from the checkpoint's stored
valid-loss — so on a resumed run the first completed epoch whose validation
jaccard exceeds 0 fires the jaccard branch and overwrites the single
checkpoint slot, whatever jaccard the resumed checkpoint was saved with. -/
theorem best_jaccard_reset_on_resume (rp : Option String)
    (sv : Option Checkpoint) (p : String) (st : Checkpoint)
    (m0 : ModelState) (epoch nB : ℕ) (m : ModelState) (tm vm : Metrics)
    (hj : 0 < vm.jaccard) :
    (initRun rp sv m0).previous_valid_jaccard = 0
    ∧ (selectStep ⟨(initRun (some p) (some st) m0).previous_valid_loss,
          (initRun (some p) (some st) m0).previous_valid_jaccard⟩
          vm.loss1 vm.jaccard).2.2 = true
    ∧ (runEpoch (toLoopState (initRun (some p) (some st) m0)) epoch
          (.metrics nB m tm vm)).1.saved
        = some (save_weights m (epoch + 1) nB tm vm) := by
  refine ⟨?_, ?_, ?_⟩
  · cases rp <;> cases sv <;> rfl
  · simp [selectStep, initRun, hj]
  · by_cases hl : vm.loss1 < st.valid_loss.getD 10 <;>
      simp [runEpoch, selectStep, toLoopState, initRun, hj, hl]

/-- Witness for the best-jaccard-reset theorem: resuming from `ckEx` (stored
jaccard 1) and completing one epoch with validation jaccard 1 still rewrites
the checkpoint slot via the jaccard branch. -/
theorem best_jaccard_reset_on_resume_witness :
    (initRun none none 0).previous_valid_jaccard = 0
    ∧ (selectStep ⟨(initRun (some "model.pt") (some ckEx) 0).previous_valid_loss,
          (initRun (some "model.pt") (some ckEx) 0).previous_valid_jaccard⟩
          vmEx.loss1 vmEx.jaccard).2.2 = true
    ∧ (runEpoch (toLoopState (initRun (some "model.pt") (some ckEx) 0)) 7
          (.metrics 4 8 tmEx vmEx)).1.saved
        = some (save_weights 8 8 4 tmEx vmEx) :=
  best_jaccard_reset_on_resume none none "model.pt" ckEx 0 7 4 8 tmEx vmEx
    (by norm_num [vmEx])

/-- C1 counterexample: on a manifest with one training row and one validation
row, the validation sample `ISIC_0002` is delivered both by the evaluation
iteration and by the training iteration — `get_split` appends a copy of every
non-train row relabelled `'train'`, so the splits are not disjoint. -/
theorem train_eval_overlap_counterexample :
    "ISIC_0002" ∈ (make_loader (get_split exampleManifest) false).map Row.name
    ∧ "ISIC_0002" ∈ (make_loader (get_split exampleManifest) true).map Row.name := by
  decide

/-- C1 (amended): the evaluation split is not held out from training —
`get_split` (train.py:40-42) appends a copy of every row whose `Split` is not
`'train'` with the copy's `Split` set to `'train'`, so every sample the run
evaluates on is also delivered by the training data iteration of every
epoch. -/
theorem eval_rows_also_delivered_to_training (manifest : List Row) (r : Row)
    (h : r ∈ make_loader (get_split manifest) false) :
    r.name ∈ (make_loader (get_split manifest) true).map Row.name := by
  obtain ⟨hmem, hsplit⟩ := List.mem_filter.mp h
  rcases List.mem_append.mp hmem with hl | hr
  · refine List.mem_map.mpr ⟨relabelTrain r, ?_, rfl⟩
    refine List.mem_filter.mpr ⟨?_, rfl⟩
    exact List.mem_append.mpr
      (Or.inr (List.mem_map.mpr ⟨r, List.mem_filter.mpr ⟨hl, hsplit⟩, rfl⟩))
  · obtain ⟨x, hx, hxe⟩ := List.mem_map.mp hr
    rw [← hxe] at hsplit
    simp [relabelTrain] at hsplit

/-- Witness for the eval-rows-also-trained theorem: the concrete validation
row of `exampleManifest` is evaluated on and its name is also delivered by
the training iteration. -/
theorem eval_rows_also_delivered_to_training_witness :
    withTotal rowVal ∈ make_loader (get_split exampleManifest) false
    ∧ (withTotal rowVal).name
        ∈ (make_loader (get_split exampleManifest) true).map Row.name :=
  ⟨by decide,
   eval_rows_also_delivered_to_training exampleManifest (withTotal rowVal)
     (by decide)⟩

/-- Helper: the epoch loop performs exactly one iteration per remaining epoch
whatever the per-epoch events are — an interrupt never shortens the run. -/
theorem runFrom_length (n : ℕ) : ∀ (s : LoopState) (epoch : ℕ)
    (events : ℕ → EpochEvent), (runFrom s epoch n events).2.length = n := by
  induction n with
  | zero => intro s epoch events; rfl
  | succ k ih => intro s epoch events; simp [runFrom, ih]

/-- C2 counterexample: with a `KeyboardInterrupt` in epoch 1 of a two-epoch
run, the process does not end — epoch 2 still executes, completes, and even
writes checkpoints; the handler (train.py:383-390) closes the writer but its
`return` is commented out, so the loop proceeds. -/
theorem interrupt_loop_continues_counterexample :
    (runFrom s0 1 2 eventsEx).2
      = [(1, .interrupted),
         (2, .completed
            [save_weights 8 3 7 tmEx vmEx, save_weights 8 3 7 tmEx vmEx])] := by
  norm_num [runFrom, runEpoch, eventsEx, s0, toLoopState, initRun, selectStep,
    save_weights, tmEx, vmEx]

/-- C2 (amended): a `KeyboardInterrupt` inside the per-epoch body aborts the
remainder of that epoch — no checkpoint is written for it, the best-so-far
trackers and the save slot are untouched — and the visualization writer is
closed, but the loop then proceeds: every remaining epoch still executes, so
the process does not end at the interrupted epoch. -/
theorem interrupt_aborts_epoch_but_not_run (s : LoopState) (epoch n nDone : ℕ)
    (m : ModelState) (events : ℕ → EpochEvent)
    (h : events epoch = .interrupt nDone m) :
    runEpoch s epoch (events epoch)
      = ({ s with step := s.step + nDone, model := m, writerOpen := false },
         .interrupted)
    ∧ (runFrom s epoch (n + 1) events).2.head? = some (epoch, .interrupted)
    ∧ (runFrom s epoch (n + 1) events).2.length = n + 1 := by
  refine ⟨by rw [h]; rfl, ?_, runFrom_length (n + 1) s epoch events⟩
  simp [runFrom, h, runEpoch]

/-- Witness for the interrupt theorem on the concrete schedule `eventsEx` of a
two-epoch run interrupted in epoch 1. -/
theorem interrupt_aborts_epoch_but_not_run_witness :
    runEpoch s0 1 (eventsEx 1)
      = ({ s0 with step := 3, model := 7, writerOpen := false }, .interrupted)
    ∧ (runFrom s0 1 2 eventsEx).2.head? = some (1, .interrupted)
    ∧ (runFrom s0 1 2 eventsEx).2.length = 2 :=
  interrupt_aborts_epoch_but_not_run s0 1 1 3 7 eventsEx rfl

/-- C9: every checkpoint the selection policy writes during an epoch records
`epoch` as the current epoch index plus one (the next epoch to run), `step`
as the current global step counter (after the epoch's batches), and the train
and validation metric mappings of the epoch that triggered the save. -/
theorem saved_checkpoint_fields (s : LoopState) (epoch nB : ℕ)
    (m : ModelState) (tm vm : Metrics) (c : Checkpoint)
    (hc : c ∈ ((runEpoch s epoch (.metrics nB m tm vm)).2).writesOf) :
    c = { epoch := epoch + 1, step := s.step + nB, model := m,
          valid_loss := some vm.loss1, train_metrics := tm,
          valid_metrics := vm } := by
  by_cases hl : vm.loss1 < s.previous_valid_loss <;>
    by_cases hj : vm.jaccard > s.previous_valid_jaccard <;>
      simp [runEpoch, selectStep, EpochResult.writesOf, save_weights, hl, hj]
        at hc <;>
      simp [hc, save_weights]

/-- Witness for the saved-checkpoint-fields theorem: the first epoch of a
fresh run saving on both branches writes a checkpoint stamped epoch 2,
step 4, with that epoch's metric mappings. -/
theorem saved_checkpoint_fields_witness :
    save_weights 8 2 4 tmEx vmEx
      ∈ ((runEpoch s0 1 (.metrics 4 8 tmEx vmEx)).2).writesOf
    ∧ save_weights 8 2 4 tmEx vmEx
      = { epoch := 2, step := 4, model := 8, valid_loss := some vmEx.loss1,
          train_metrics := tmEx, valid_metrics := vmEx } := by
  have hmem : save_weights 8 2 4 tmEx vmEx
      ∈ ((runEpoch s0 1 (.metrics 4 8 tmEx vmEx)).2).writesOf := by
    norm_num [runEpoch, selectStep, s0, toLoopState, initRun,
      EpochResult.writesOf, save_weights, tmEx, vmEx]
  exact ⟨hmem, saved_checkpoint_fields s0 1 4 8 tmEx vmEx _ hmem⟩

end ISIC2018
